import Mathlib

/-!
Verification of the data-validation layer of a FIFA-tournament tracking
service (`app/models.py`, pydantic v2 models).  The claims concern the
`MatchCreate` and `ScoreUpdate` models: their field validators, the
normalization they perform, and the `dict()` override of `MatchCreate`.

Modelling notes (pydantic v2 semantics, embedded faithfully):
* A payload field that is declared `Optional[T] = None` can be *omitted*,
  supplied as *explicit null*, or supplied with a value.  We model this as
  `Option (Option T)`: `none` = omitted, `some none` = explicit null,
  `some (some v)` = value.
* Pydantic v2 runs a `field_validator` only when the field is present in
  the input; an omitted field takes its declared default *without* the
  validator running (`validate_default` is not set anywhere in the source).
* Fields are validated in declaration order and errors from different
  fields are collected; the model is accepted iff no field produced an
  error.
* `datetime` values are modelled as integer timestamps (`Int`); the only
  operation the source performs on them is comparison.
* `extra="allow"` on `MatchCreate` is modelled by an `extra` association
  list carried through validation untouched.
-/

/-- `MatchType` enum from the source: `"1v1"` and `"2v2"`. -/
inductive MatchType
  | one_v_one
  | two_v_two
deriving DecidableEq, Repr

/-- `MatchStatus` enum from the source. -/
inductive MatchStatus
  | scheduled
  | completed
  | cancelled
deriving DecidableEq, Repr

/-- Raw `MatchCreate` payload, after per-field type coercion.  Required
fields (`round`, `match_type`, `team1_player1_id`, `team2_player1_id`,
`match_date`) are carried directly; optional fields distinguish omitted
(`none`), explicit null (`some none`) and supplied value (`some (some v)`).
`extra` holds the unknown key-value fields admitted by
`model_config = ConfigDict(extra="allow")`. -/
structure MatchCreatePayload where
  round : String
  match_type : MatchType
  team1_player1_id : Int
  team1_player2_id : Option (Option Int)
  team2_player1_id : Int
  team2_player2_id : Option (Option Int)
  match_date : Int
  scheduled_date : Option (Option Int)
  team1_goals : Option (Option Int)
  team2_goals : Option (Option Int)
  status : Option (Option MatchStatus)
  extra : List (String × String)
deriving DecidableEq, Repr

namespace MatchCreate

/-- `MatchCreate.validate_2v2_players` (models.py lines 105-113), applied to
`team1_player2_id` and `team2_player2_id`.  The Python guard
`if "match_type" in info.data` always holds here because the payload carries
a validly-typed `match_type`. -/
def validate_2v2_players (match_type : MatchType) (v : Option Int) :
    Except String (Option Int) :=
  if match_type = MatchType.two_v_two ∧ v = none then
    Except.error "2v2 matches require both players for each team"
  else if match_type = MatchType.one_v_one ∧ v.isSome then
    Except.error "1v1 matches should not have second players"
  else
    Except.ok v

/-- `MatchCreate.set_scheduled_date` (lines 115-118):
`return v or info.data.get("match_date")`.  Python `or` takes the right
operand when `v` is `None`. -/
def set_scheduled_date (match_date_in_data : Option Int) (v : Option Int) :
    Option Int :=
  match v with
  | some d => some d
  | none => match_date_in_data

/-- `MatchCreate.validate_match_date` (lines 120-125): rejects a
`match_date` strictly before `datetime.now()`.  The clock reading is an
explicit argument `now`. -/
def validate_match_date (now : Int) (v : Int) : Except String Int :=
  if v < now then Except.error "Match date cannot be in the past"
  else Except.ok v

/-- `MatchCreate.determine_status_from_goals` (lines 127-136): ignores the
supplied status `v` and derives the status from presence of both goal
counts in the already-validated data. -/
def determine_status_from_goals (team1_goals team2_goals : Option Int)
    (_v : Option MatchStatus) : MatchStatus :=
  if team1_goals.isSome ∧ team2_goals.isSome then MatchStatus.completed
  else MatchStatus.scheduled

/-- `MatchCreate.validate_goals` (lines 138-143): rejects a supplied
negative goal count; `None` passes. -/
def validate_goals (v : Option Int) : Except String (Option Int) :=
  match v with
  | some g => if g < 0 then Except.error "Goals cannot be negative"
              else Except.ok (some g)
  | none => Except.ok none

end MatchCreate

/-- Errors of a field validator run, as pydantic collects them. -/
def errOf {α : Type} : Except String α → List String
  | Except.ok _ => []
  | Except.error e => [e]

/-- Pydantic v2 semantics for a validator on an optional field: the
validator runs only when the field was present in the input; an omitted
field takes its default with no validator run. -/
def fieldErrors {α β : Type} (f : α → Except String β) (given : Option α) :
    List String :=
  match given with
  | none => []
  | some v => errOf (f v)

/-- All validation errors `MatchCreate` raises on a payload, in field
declaration order.  `round`, `match_type` and the required player ids have
no validators beyond type coercion; `scheduled_date` and `status`
validators never raise. -/
def matchCreateErrors (now : Int) (p : MatchCreatePayload) : List String :=
  fieldErrors (MatchCreate.validate_2v2_players p.match_type)
      p.team1_player2_id
    ++ fieldErrors (MatchCreate.validate_2v2_players p.match_type)
      p.team2_player2_id
    ++ errOf (MatchCreate.validate_match_date now p.match_date)
    ++ fieldErrors MatchCreate.validate_goals p.team1_goals
    ++ fieldErrors MatchCreate.validate_goals p.team2_goals

/-- The validated `MatchCreate` model instance (fields as they sit on the
pydantic object after validation). -/
structure MatchCreateModel where
  round : String
  match_type : MatchType
  team1_player1_id : Int
  team1_player2_id : Option Int
  team2_player1_id : Int
  team2_player2_id : Option Int
  match_date : Int
  scheduled_date : Option Int
  team1_goals : Option Int
  team2_goals : Option Int
  status : Option MatchStatus
  extra : List (String × String)
deriving DecidableEq, Repr

/-- Field values of the accepted model instance: omitted optional fields
take their default `None` with no validator run; present fields take the
validator output. -/
def buildMatchCreate (p : MatchCreatePayload) : MatchCreateModel where
  round := p.round
  match_type := p.match_type
  team1_player1_id := p.team1_player1_id
  team1_player2_id := p.team1_player2_id.getD none
  team2_player1_id := p.team2_player1_id
  team2_player2_id := p.team2_player2_id.getD none
  match_date := p.match_date
  scheduled_date :=
    match p.scheduled_date with
    | none => none
    | some v => MatchCreate.set_scheduled_date (some p.match_date) v
  team1_goals := p.team1_goals.getD none
  team2_goals := p.team2_goals.getD none
  status :=
    match p.status with
    | none => none
    | some v => some (MatchCreate.determine_status_from_goals
        (p.team1_goals.getD none) (p.team2_goals.getD none) v)
  extra := p.extra

/-- Output of the overridden `MatchCreate.dict()` (lines 145-149): the
serialized record in which `status` is unconditionally recomputed from the
presence of both goal counts, so it is always present. -/
structure MatchCreateDict where
  round : String
  match_type : MatchType
  team1_player1_id : Int
  team1_player2_id : Option Int
  team2_player1_id : Int
  team2_player2_id : Option Int
  match_date : Int
  scheduled_date : Option Int
  team1_goals : Option Int
  team2_goals : Option Int
  status : MatchStatus
  extra : List (String × String)
deriving DecidableEq, Repr

/-- `MatchCreate.dict` (lines 145-149): `super().dict()` then
`data["status"] = COMPLETED if has_goals else SCHEDULED` where
`has_goals = data.get("team1_goals") is not None and
data.get("team2_goals") is not None`. -/
def MatchCreateModel.dict (m : MatchCreateModel) : MatchCreateDict where
  round := m.round
  match_type := m.match_type
  team1_player1_id := m.team1_player1_id
  team1_player2_id := m.team1_player2_id
  team2_player1_id := m.team2_player1_id
  team2_player2_id := m.team2_player2_id
  match_date := m.match_date
  scheduled_date := m.scheduled_date
  team1_goals := m.team1_goals
  team2_goals := m.team2_goals
  status :=
    if m.team1_goals.isSome ∧ m.team2_goals.isSome then MatchStatus.completed
    else MatchStatus.scheduled
  extra := m.extra

/-- Full `MatchCreate` validation followed by `dict()` normalization:
accepted iff no field validator raised, in which case the normalized
record is returned. -/
def validateMatchCreate (now : Int) (p : MatchCreatePayload) :
    Except (List String) MatchCreateDict :=
  match matchCreateErrors now p with
  | [] => Except.ok (buildMatchCreate p).dict
  | es => Except.error es

/-- Raw `ScoreUpdate` payload: both goal fields are required `int`s, so we
record only whether each was supplied with an integer value (`none` covers
a missing key, which pydantic rejects as a required-field error). -/
structure ScoreUpdatePayload where
  team1_goals : Option Int
  team2_goals : Option Int
deriving DecidableEq, Repr

namespace ScoreUpdate

/-- `ScoreUpdate.validate_goals` (lines 190-195). -/
def validate_goals (v : Int) : Except String Int :=
  if v < 0 then Except.error "Goals cannot be negative"
  else Except.ok v

end ScoreUpdate

/-- The validated `ScoreUpdate` record: exactly the two goal counts, no
status field. -/
structure ScoreUpdateModel where
  team1_goals : Int
  team2_goals : Int
deriving DecidableEq, Repr

/-- Validation of one required goal field of `ScoreUpdate`: missing key is
a required-field error, otherwise `ScoreUpdate.validate_goals` runs. -/
def requireGoalField (given : Option Int) : Except (List String) Int :=
  match given with
  | none => Except.error ["Field required"]
  | some g =>
    match ScoreUpdate.validate_goals g with
    | Except.ok a => Except.ok a
    | Except.error e => Except.error [e]

/-- Errors of a per-field run of `ScoreUpdate` validation. -/
def errsOf {α : Type} : Except (List String) α → List String
  | Except.ok _ => []
  | Except.error es => es

/-- All validation errors `ScoreUpdate` raises on a payload. -/
def scoreUpdateErrors (p : ScoreUpdatePayload) : List String :=
  errsOf (requireGoalField p.team1_goals)
    ++ errsOf (requireGoalField p.team2_goals)

/-- Full `ScoreUpdate` validation (lines 186-195): accepted iff both
fields validate, collecting the errors otherwise. -/
def validateScoreUpdate (p : ScoreUpdatePayload) :
    Except (List String) ScoreUpdateModel :=
  match requireGoalField p.team1_goals, requireGoalField p.team2_goals with
  | Except.ok a, Except.ok b => Except.ok ⟨a, b⟩
  | r1, r2 => Except.error (errsOf r1 ++ errsOf r2)

/-- `true` iff a validation result is an acceptance. -/
def accepts {ε α : Type} : Except ε α → Bool
  | Except.ok _ => true
  | Except.error _ => false

/-- A baseline valid 1v1 creation payload: round `"R1"`, players 1 and 2,
match date 100, every optional field omitted. -/
def basePayload : MatchCreatePayload where
  round := "R1"
  match_type := MatchType.one_v_one
  team1_player1_id := 1
  team1_player2_id := none
  team2_player1_id := 2
  team2_player2_id := none
  match_date := 100
  scheduled_date := none
  team1_goals := none
  team2_goals := none
  status := none
  extra := []

example : validateMatchCreate 0 basePayload =
    Except.ok (buildMatchCreate basePayload).dict := rfl

/-- If some error is in the collected list, validation rejects with the
whole collected list. -/
lemma validateMatchCreate_error_of_mem {now : Int} {p : MatchCreatePayload}
    {e : String} (h : e ∈ matchCreateErrors now p) :
    validateMatchCreate now p = Except.error (matchCreateErrors now p) := by
  unfold validateMatchCreate
  cases hm : matchCreateErrors now p with
  | nil => rw [hm] at h; cases h
  | cons a as => rfl

/-- C1: for every accepted match-creation payload, the normalized record
(the `dict()` output) carries status `COMPLETED` iff both goal counts are
present (non-null) after normalization, and `SCHEDULED` otherwise,
whatever `status` the payload supplied; a status is always present (the
`status` field of `MatchCreateDict` is total). -/
theorem matchCreate_status_derived_from_goals (now : Int)
    (p : MatchCreatePayload) (d : MatchCreateDict)
    (h : validateMatchCreate now p = Except.ok d) :
    (d.status = MatchStatus.completed ↔
      (p.team1_goals.getD none).isSome ∧ (p.team2_goals.getD none).isSome) ∧
    (d.status = MatchStatus.scheduled ↔
      ¬ ((p.team1_goals.getD none).isSome ∧
        (p.team2_goals.getD none).isSome)) := by
  unfold validateMatchCreate at h
  cases hm : matchCreateErrors now p with
  | nil =>
    rw [hm] at h
    simp only [Except.ok.injEq] at h
    subst h
    by_cases hg : (p.team1_goals.getD none).isSome ∧
        (p.team2_goals.getD none).isSome
    · simp [MatchCreateModel.dict, buildMatchCreate, hg]
    · simp [MatchCreateModel.dict, buildMatchCreate, hg]
  | cons a as =>
    rw [hm] at h
    cases h

/-- A 1v1 creation payload supplying both goal counts. -/
def payloadBothGoals : MatchCreatePayload :=
  { basePayload with team1_goals := some (some 3), team2_goals := some (some 1) }

/-- Witness for C1 at a concrete accepted payload with both goals given. -/
theorem matchCreate_status_derived_from_goals_witness :
    ((buildMatchCreate payloadBothGoals).dict.status = MatchStatus.completed ↔
      (payloadBothGoals.team1_goals.getD none).isSome ∧
      (payloadBothGoals.team2_goals.getD none).isSome) ∧
    ((buildMatchCreate payloadBothGoals).dict.status = MatchStatus.scheduled ↔
      ¬ ((payloadBothGoals.team1_goals.getD none).isSome ∧
        (payloadBothGoals.team2_goals.getD none).isSome)) :=
  matchCreate_status_derived_from_goals 0 payloadBothGoals
    (buildMatchCreate payloadBothGoals).dict rfl

/-- A 2v2 creation payload that simply omits both teammate slots. -/
def payload2v2Omitted : MatchCreatePayload :=
  { basePayload with match_type := MatchType.two_v_two }

/-- A 2v2 creation payload that supplies both teammate slots as explicit
nulls. -/
def payload2v2Nulls : MatchCreatePayload :=
  { payload2v2Omitted with
    team1_player2_id := some none, team2_player2_id := some none }

/-- C2: a 2v2 payload that *omits* the teammate slots is accepted — the
`validate_2v2_players` validator never runs on an omitted field, so the
normalized record carries null teammate ids for a 2v2 match.  Only
*explicitly null* teammate slots are rejected. -/
theorem matchCreate_2v2_omitted_teammates_accepted :
    accepts (validateMatchCreate 0 payload2v2Omitted) = true ∧
    (buildMatchCreate payload2v2Omitted).team1_player2_id = none ∧
    (buildMatchCreate payload2v2Omitted).team2_player2_id = none ∧
    accepts (validateMatchCreate 0 payload2v2Nulls) = false :=
  ⟨rfl, rfl, rfl, rfl⟩

/-- A 1v1 creation payload supplying `scheduled_date` as explicit null. -/
def payloadNullScheduled : MatchCreatePayload :=
  { basePayload with scheduled_date := some none }

/-- C4: a payload that omits `scheduled_date` is accepted with
`scheduled_date` still null in the normalized record (the
`set_scheduled_date` validator never runs on an omitted field), even
though `match_date` is 100; only an *explicitly null* `scheduled_date` is
replaced by `match_date`. -/
theorem matchCreate_scheduled_date_omitted_stays_null :
    validateMatchCreate 0 basePayload =
      Except.ok (buildMatchCreate basePayload).dict ∧
    (buildMatchCreate basePayload).dict.scheduled_date = none ∧
    (buildMatchCreate basePayload).dict.match_date = 100 ∧
    validateMatchCreate 0 payloadNullScheduled =
      Except.ok (buildMatchCreate payloadNullScheduled).dict ∧
    (buildMatchCreate payloadNullScheduled).dict.scheduled_date = some 100 :=
  ⟨rfl, rfl, rfl, rfl, rfl⟩

/-- C3: a negative goal count supplied in either field makes both
`MatchCreate` and `ScoreUpdate` validation reject with the
negative-value error, while the goal validators accept any non-negative
count. -/
theorem goals_negative_rejected :
    (∀ (now : Int) (p : MatchCreatePayload) (g : Int),
      (p.team1_goals = some (some g) ∨ p.team2_goals = some (some g)) →
      g < 0 →
      ∃ es, validateMatchCreate now p = Except.error es ∧
        "Goals cannot be negative" ∈ es) ∧
    (∀ (p : ScoreUpdatePayload) (g : Int),
      (p.team1_goals = some g ∨ p.team2_goals = some g) → g < 0 →
      ∃ es, validateScoreUpdate p = Except.error es ∧
        "Goals cannot be negative" ∈ es) ∧
    (∀ g : Int, 0 ≤ g →
      MatchCreate.validate_goals (some g) = Except.ok (some g) ∧
      ScoreUpdate.validate_goals g = Except.ok g) := by
  refine ⟨?_, ?_, ?_⟩
  · intro now p g hf hg
    have hmem : "Goals cannot be negative" ∈ matchCreateErrors now p := by
      rcases hf with h1 | h2
      · simp [matchCreateErrors, fieldErrors, h1, MatchCreate.validate_goals,
          errOf, hg]
      · simp [matchCreateErrors, fieldErrors, h2, MatchCreate.validate_goals,
          errOf, hg]
    exact ⟨matchCreateErrors now p, validateMatchCreate_error_of_mem hmem,
      hmem⟩
  · intro p g hf hg
    rcases hf with h1 | h2
    · have h1e : requireGoalField p.team1_goals =
          Except.error ["Goals cannot be negative"] := by
        simp [requireGoalField, h1, ScoreUpdate.validate_goals, hg]
      cases hq : requireGoalField p.team2_goals with
      | ok b =>
        refine ⟨["Goals cannot be negative"] ++ [], ?_, by simp⟩
        unfold validateScoreUpdate
        rw [h1e, hq]
        rfl
      | error es2 =>
        refine ⟨["Goals cannot be negative"] ++ es2, ?_, by simp⟩
        unfold validateScoreUpdate
        rw [h1e, hq]
        rfl
    · have h2e : requireGoalField p.team2_goals =
          Except.error ["Goals cannot be negative"] := by
        simp [requireGoalField, h2, ScoreUpdate.validate_goals, hg]
      cases hq : requireGoalField p.team1_goals with
      | ok a =>
        refine ⟨[] ++ ["Goals cannot be negative"], ?_, by simp⟩
        unfold validateScoreUpdate
        rw [h2e, hq]
        rfl
      | error es1 =>
        refine ⟨es1 ++ ["Goals cannot be negative"], ?_, by simp⟩
        unfold validateScoreUpdate
        rw [h2e, hq]
        rfl
  · intro g hg
    exact ⟨by simp [MatchCreate.validate_goals, not_lt.mpr hg],
      by simp [ScoreUpdate.validate_goals, not_lt.mpr hg]⟩

/-- A 1v1 creation payload with a negative first goal count. -/
def payloadNegGoal : MatchCreatePayload :=
  { basePayload with team1_goals := some (some (-1)) }

/-- A score-update payload with a negative first goal count. -/
def scorePayloadNeg : ScoreUpdatePayload where
  team1_goals := some (-1)
  team2_goals := some 0

/-- Witness for C3 at concrete negative and non-negative goal counts. -/
theorem goals_negative_rejected_witness :
    (∃ es, validateMatchCreate 0 payloadNegGoal = Except.error es ∧
      "Goals cannot be negative" ∈ es) ∧
    (∃ es, validateScoreUpdate scorePayloadNeg = Except.error es ∧
      "Goals cannot be negative" ∈ es) ∧
    (MatchCreate.validate_goals (some 2) = Except.ok (some 2) ∧
      ScoreUpdate.validate_goals 2 = Except.ok 2) :=
  ⟨goals_negative_rejected.1 0 payloadNegGoal (-1) (Or.inl rfl) (by decide),
   goals_negative_rejected.2.1 scorePayloadNeg (-1) (Or.inl rfl) (by decide),
   goals_negative_rejected.2.2 2 (by decide)⟩

/-- C5: a `match_date` strictly before the clock reading `now` makes
`MatchCreate` validation reject with the past-date error; a `match_date`
at or after `now` passes the match-date check. -/
theorem matchCreate_past_date_rejected :
    (∀ (now : Int) (p : MatchCreatePayload), p.match_date < now →
      ∃ es, validateMatchCreate now p = Except.error es ∧
        "Match date cannot be in the past" ∈ es) ∧
    (∀ (now v : Int), now ≤ v →
      MatchCreate.validate_match_date now v = Except.ok v) := by
  constructor
  · intro now p hlt
    have hmem : "Match date cannot be in the past" ∈ matchCreateErrors now p := by
      simp [matchCreateErrors, MatchCreate.validate_match_date, errOf, hlt]
    exact ⟨matchCreateErrors now p, validateMatchCreate_error_of_mem hmem,
      hmem⟩
  · intro now v hle
    simp [MatchCreate.validate_match_date, not_lt.mpr hle]

/-- Witness for C5: the base payload (match date 100) is rejected at
time 200 and its match-date check passes at time 0. -/
theorem matchCreate_past_date_rejected_witness :
    (∃ es, validateMatchCreate 200 basePayload = Except.error es ∧
      "Match date cannot be in the past" ∈ es) ∧
    MatchCreate.validate_match_date 0 100 = Except.ok 100 :=
  ⟨matchCreate_past_date_rejected.1 200 basePayload (by decide),
   matchCreate_past_date_rejected.2 0 100 (by decide)⟩

/-- C6 counterexample: validation of one and the same creation payload
accepts at clock reading 0 and rejects at clock reading 200, so the
outcome is not a function of the payload alone. -/
theorem matchCreate_time_dependent_counterexample :
    accepts (validateMatchCreate 0 basePayload) = true ∧
    accepts (validateMatchCreate 200 basePayload) = false :=
  ⟨rfl, rfl⟩

/-- C6 (amended): `ScoreUpdate` validation takes no clock at all, and
`MatchCreate` validation depends on the clock only through the test
`match_date < now`: two invocations on the same payload whose clock
readings agree on that test return identical results. -/
theorem matchCreate_deterministic_given_clock (t1 t2 : Int)
    (p : MatchCreatePayload)
    (h : p.match_date < t1 ↔ p.match_date < t2) :
    validateMatchCreate t1 p = validateMatchCreate t2 p := by
  have hdate : MatchCreate.validate_match_date t1 p.match_date =
      MatchCreate.validate_match_date t2 p.match_date := by
    unfold MatchCreate.validate_match_date
    by_cases h1 : p.match_date < t1
    · rw [if_pos h1, if_pos (h.mp h1)]
    · rw [if_neg h1, if_neg (fun h2 => h1 (h.mpr h2))]
  have herr : matchCreateErrors t1 p = matchCreateErrors t2 p := by
    unfold matchCreateErrors
    rw [hdate]
  unfold validateMatchCreate
  rw [herr]

/-- Witness for C6 (amended): times 0 and 50 agree on the test against
match date 100, and the two validations coincide. -/
theorem matchCreate_deterministic_given_clock_witness :
    validateMatchCreate 0 basePayload = validateMatchCreate 50 basePayload :=
  matchCreate_deterministic_given_clock 0 50 basePayload (by decide)

/-- C7: `ScoreUpdate` validation accepts exactly the payloads supplying
both goal counts as non-negative integers, and the accepted record is
those two counts unchanged (the record type `ScoreUpdateModel` has no
status field and no derivation is applied). -/
theorem scoreUpdate_accept_iff (p : ScoreUpdatePayload)
    (r : ScoreUpdateModel) :
    validateScoreUpdate p = Except.ok r ↔
      (p.team1_goals = some r.team1_goals ∧
       p.team2_goals = some r.team2_goals ∧
       0 ≤ r.team1_goals ∧ 0 ≤ r.team2_goals) := by
  cases hp1 : p.team1_goals with
  | none =>
    simp [validateScoreUpdate, requireGoalField, hp1]
  | some g1 =>
    cases hp2 : p.team2_goals with
    | none =>
      simp [validateScoreUpdate, requireGoalField, hp1, hp2,
        ScoreUpdate.validate_goals]
    | some g2 =>
      by_cases h1 : g1 < 0
      · simp [validateScoreUpdate, requireGoalField, hp1, hp2,
          ScoreUpdate.validate_goals, h1]
        rintro rfl
        omega
      · by_cases h2 : g2 < 0
        · simp [validateScoreUpdate, requireGoalField, hp1, hp2,
            ScoreUpdate.validate_goals, h1, h2]
          rintro rfl rfl
          omega
        · simp [validateScoreUpdate, requireGoalField, hp1, hp2,
            ScoreUpdate.validate_goals, h1, h2]
          constructor
          · rintro rfl
            exact ⟨rfl, rfl, not_lt.mp h1, not_lt.mp h2⟩
          · rintro ⟨e1, e2, n1, n2⟩
            cases r
            simp at e1 e2
            simp [e1, e2]

/-- Witness for C7: the payload supplying goals 2 and 0 is accepted with
exactly those counts. -/
theorem scoreUpdate_accept_iff_witness :
    validateScoreUpdate ⟨some 2, some 0⟩ = Except.ok ⟨2, 0⟩ :=
  (scoreUpdate_accept_iff ⟨some 2, some 0⟩ ⟨2, 0⟩).mpr
    ⟨rfl, rfl, by decide, by decide⟩

/-- The base payload with an empty round label. -/
def payloadEmptyRound : MatchCreatePayload :=
  { basePayload with round := "" }

/-- C8 counterexample: a creation payload whose `round` is the empty
string is accepted — no non-emptiness check exists on `round`. -/
theorem matchCreate_empty_round_accepted :
    payloadEmptyRound.round = "" ∧
    validateMatchCreate 0 payloadEmptyRound =
      Except.ok (buildMatchCreate payloadEmptyRound).dict :=
  ⟨rfl, rfl⟩

/-- C8 (amended): `MatchCreate` validation puts no constraint at all on
`round`: replacing the round label of any payload by any string, the
empty string included, never changes whether validation accepts. -/
theorem matchCreate_round_unconstrained (now : Int)
    (p : MatchCreatePayload) (s : String) :
    accepts (validateMatchCreate now { p with round := s }) =
      accepts (validateMatchCreate now p) := by
  have he : matchCreateErrors now { p with round := s } =
      matchCreateErrors now p := by
    cases p
    rfl
  unfold validateMatchCreate
  rw [he]
  cases matchCreateErrors now p <;> rfl

/-- C9: unknown extra fields never cause rejection — appending arbitrary
extra key-value pairs to an accepted payload keeps it accepted
(`extra="allow"` stores them untouched and no validator reads them). -/
theorem matchCreate_extra_fields_accepted (now : Int)
    (p : MatchCreatePayload) (e : List (String × String))
    (h : accepts (validateMatchCreate now p) = true) :
    accepts (validateMatchCreate now { p with extra := p.extra ++ e }) =
      true := by
  have he : matchCreateErrors now { p with extra := p.extra ++ e } =
      matchCreateErrors now p := by
    cases p
    rfl
  unfold validateMatchCreate at h ⊢
  rw [he]
  cases hm : matchCreateErrors now p with
  | nil => rfl
  | cons a as =>
    rw [hm] at h
    simp [accepts] at h

/-- Witness for C9: the base payload stays accepted after adding an
unknown field. -/
theorem matchCreate_extra_fields_accepted_witness :
    accepts (validateMatchCreate 0
      { basePayload with extra := basePayload.extra ++ [("note", "x")] }) =
      true :=
  matchCreate_extra_fields_accepted 0 basePayload [("note", "x")] rfl

/-- The base payload with the same player id on both teams. -/
def payloadSharedPlayer : MatchCreatePayload :=
  { basePayload with team1_player1_id := 7, team2_player1_id := 7 }

/-- C10: no distinctness constraint across player slots — a payload in
which the same player id appears on both teams is accepted. -/
theorem matchCreate_duplicate_player_accepted :
    payloadSharedPlayer.team1_player1_id =
      payloadSharedPlayer.team2_player1_id ∧
    accepts (validateMatchCreate 0 payloadSharedPlayer) = true :=
  ⟨rfl, rfl⟩
